import Mathlib

/-!
Shallow embedding of `backend/server.py` of the Films-Acteurs repository.

The MongoDB collections `db.actors` and `db.movies` are modelled as Lean
lists of records; `find`/`find_one`/`update_one`/`delete_one` become list
operations that act on the first matching element, as MongoDB's `_one`
operations do.  `$regex` with option `"i"` is modelled for the fragment of
PCRE actually exercised by the claims: a pattern is a sequence of tokens,
each either a literal character or the any-character metacharacter `.`
(which, as in PCRE without the `s` option, matches every character except
the newline); matching is unanchored, case-insensitive via `Char.toLower`.
Patterns containing other PCRE metacharacters are outside the scope of the
model and of every theorem below.  Effectful inputs of the handlers
(generated UUIDs, the current time) are passed as explicit parameters.
`Option` on a payload field models JSON absence / `None`.
-/

/-- HTTP-level error outcomes of the handlers: FastAPI/pydantic request
validation (422), `HTTPException(404)`, `HTTPException(400)`, and an
unhandled in-handler exception surfacing as HTTP 500 (e.g. motor's
`to_list` raising `ValueError` on a negative length). -/
inductive ApiError where
  | validation (detail : String)
  | notFound (detail : String)
  | badRequest (detail : String)
  | internal (detail : String)
deriving Repr, DecidableEq

/-- One token of a regular-expression pattern: the `.` metacharacter or a
literal character. -/
inductive RTok where
  | anyChar
  | lit (c : Char)
deriving Repr, DecidableEq

/-- Reading of the pattern string handed to Mongo's `$regex`: `.` is the
any-character metacharacter, every other character is a literal.  (Other
PCRE metacharacters are not modelled; no theorem below uses them.) -/
def parsePattern (p : String) : List RTok :=
  p.data.map (fun c => if c = '.' then RTok.anyChar else RTok.lit c)

/-- Token-against-character match under the case-insensitive option `"i"`:
`.` matches everything except a newline, a literal matches up to case. -/
def tokMatchesCI : RTok → Char → Bool
  | RTok.anyChar, d => d ≠ Char.ofNat 10
  | RTok.lit c, d => c.toLower = d.toLower

/-- Anchored match of a token list against a prefix of the text. -/
def matchHere : List RTok → List Char → Bool
  | [], _ => true
  | _ :: _, [] => false
  | t :: ts, d :: ds => tokMatchesCI t d && matchHere ts ds

/-- Unanchored regex search: the pattern matches at some position. -/
def regexFindList (ts : List RTok) : List Char → Bool
  | [] => matchHere ts []
  | d :: ds => matchHere ts (d :: ds) || regexFindList ts ds

/-- Mongo's `{"$regex": pat, "$options": "i"}` applied to a string field. -/
def mongoRegexI (pat text : String) : Bool :=
  regexFindList (parsePattern pat) text.data

/-- A `$regex` condition on an optional field: a null/absent field never
matches a regex condition. -/
def optFieldRegexI (pat : String) : Option String → Bool
  | none => false
  | some s => mongoRegexI pat s

/-- The characters of a string, lower-cased. -/
def lowerChars (s : String) : List Char := s.data.map Char.toLower

/-- Boolean prefix test on character lists. -/
def charsPrefixAt : List Char → List Char → Bool
  | [], _ => true
  | _ :: _, [] => false
  | c :: cs, d :: ds => c = d && charsPrefixAt cs ds

/-- Boolean contiguous-sublist test on character lists. -/
def charsContains (needle : List Char) : List Char → Bool
  | [] => charsPrefixAt needle []
  | d :: ds => charsPrefixAt needle (d :: ds) || charsContains needle ds

/-- The spec's notion of matching, stated in the spec's own words: the
needle occurs case-insensitively as a substring of the hay. -/
def ciSubstring (needle hay : String) : Bool :=
  charsContains (lowerChars needle) (lowerChars hay)

/-- Case-insensitive-substring condition on an optional field; an absent
field contains nothing. -/
def optFieldCiSubstring (needle : String) : Option String → Bool
  | none => false
  | some s => ciSubstring needle s

/-- The PCRE metacharacters; the theorems about literal substring search
require the pattern to avoid all of them.  (The braces are given by code
point, 123 and 125.) -/
def regexMetaChars : List Char :=
  "\\^$.|?*+()[]".data ++ [Char.ofNat 123, Char.ofNat 125]

/-- Whether a character is a PCRE metacharacter. -/
def isRegexMeta (c : Char) : Bool := regexMetaChars.contains c

/-- The stored Person record (`class Actor` in `server.py`). -/
structure Actor where
  id : String
  nom : String
  age : Option Int := none
  nationalite : Option String := none
  biographie : Option String := none
  photo_profil : Option String := none
  filmographie : List String := []
  created_at : Nat := 0
deriving Repr, DecidableEq

/-- The creation/update payload after pydantic validation
(`class ActorCreate`): `nom` is required, the optional fields default to
null and `filmographie` defaults to the empty list. -/
structure ActorCreate where
  nom : String
  age : Option Int := none
  nationalite : Option String := none
  biographie : Option String := none
  filmographie : List String := []
deriving Repr, DecidableEq

/-- The stored Work record (`class Movie` in `server.py`). -/
structure Movie where
  id : String
  nom : String
  annee : Option Int := none
  genre : Option String := none
  description : Option String := none
  photo_couverture : Option String := none
  acteurs : List String := []
  lien_externe : Option String := none
  created_at : Nat := 0
deriving Repr, DecidableEq

/-- The creation/update payload after pydantic validation
(`class MovieCreate`): `nom` is required, optional fields default to null
and `acteurs` defaults to the empty list. -/
structure MovieCreate where
  nom : String
  annee : Option Int := none
  genre : Option String := none
  description : Option String := none
  acteurs : List String := []
  lien_externe : Option String := none
deriving Repr, DecidableEq

/-- A raw Person JSON body, before pydantic validation: `none` models an
absent field. -/
structure RawActorPayload where
  nom : Option String := none
  age : Option Int := none
  nationalite : Option String := none
  biographie : Option String := none
  filmographie : Option (List String) := none
deriving Repr, DecidableEq

/-- A raw Work JSON body, before pydantic validation. -/
structure RawMoviePayload where
  nom : Option String := none
  annee : Option Int := none
  genre : Option String := none
  description : Option String := none
  acteurs : Option (List String) := none
  lien_externe : Option String := none
deriving Repr, DecidableEq

/-- Pydantic validation of `ActorCreate`: a missing `nom` is a 422; any
string (including the empty string) is accepted; an absent `filmographie`
takes the declared default `[]`. -/
def parseActorCreate (r : RawActorPayload) : Except ApiError ActorCreate :=
  match r.nom with
  | none => Except.error (ApiError.validation "nom: field required")
  | some n =>
      Except.ok { nom := n, age := r.age, nationalite := r.nationalite,
                  biographie := r.biographie,
                  filmographie := r.filmographie.getD [] }

/-- Pydantic validation of `MovieCreate`. -/
def parseMovieCreate (r : RawMoviePayload) : Except ApiError MovieCreate :=
  match r.nom with
  | none => Except.error (ApiError.validation "nom: field required")
  | some n =>
      Except.ok { nom := n, annee := r.annee, genre := r.genre,
                  description := r.description,
                  acteurs := r.acteurs.getD [],
                  lien_externe := r.lien_externe }

/-- The two MongoDB collections. -/
structure DB where
  actors : List Actor := []
  movies : List Movie := []
deriving Repr, DecidableEq

/-- Query parameters of `GET /api/actors`; `limit` is `none` when the
request does not supply the parameter (FastAPI default 50, `le=100`). -/
structure ActorListParams where
  search : Option String := none
  nom : Option String := none
  nationalite : Option String := none
  age_min : Option Int := none
  age_max : Option Int := none
  limit : Option Int := none
deriving Repr, DecidableEq

/-- Query parameters of `GET /api/movies`. -/
structure MovieListParams where
  search : Option String := none
  nom : Option String := none
  genre : Option String := none
  annee : Option Int := none
  limit : Option Int := none
deriving Repr, DecidableEq

/-- Python truthiness filter on an optional string (`if search:`): `None`
and the empty string are falsy. -/
def strPresent : Option String → Option String
  | none => none
  | some s => if s = "" then none else some s

/-- Python truthiness filter on an optional integer (`if annee:`): `None`
and `0` are falsy. -/
def intPresent : Option Int → Option Int
  | none => none
  | some y => if y = 0 then none else some y

/-- The `$or` search clause of `get_actors` over `nom`, `nationalite`,
`biographie`. -/
def actorMatchesSearch (pat : String) (a : Actor) : Bool :=
  mongoRegexI pat a.nom || optFieldRegexI pat a.nationalite ||
    optFieldRegexI pat a.biographie

/-- The age clause of `get_actors`: built only when a bound is given
(`is not None`); a numeric `$gte`/`$lte` condition is never satisfied by a
null/absent `age`. -/
def actorAgeMatches (age_min age_max : Option Int) (a : Actor) : Bool :=
  if age_min = none && age_max = none then true
  else
    match a.age with
    | none => false
    | some v =>
        (match age_min with | none => true | some m => decide (m ≤ v)) &&
        (match age_max with | none => true | some m => decide (v ≤ m))

/-- The complete Mongo query built by `get_actors`, as a predicate on a
stored record: the conjunction of the clauses for the parameters that are
truthy (strings) or present (age bounds). -/
def actorQueryMatches (p : ActorListParams) (a : Actor) : Bool :=
  (match strPresent p.search with
   | none => true
   | some s => actorMatchesSearch s a) &&
  (match strPresent p.nom with
   | none => true
   | some s => mongoRegexI s a.nom) &&
  (match strPresent p.nationalite with
   | none => true
   | some s => optFieldRegexI s a.nationalite) &&
  actorAgeMatches p.age_min p.age_max a

/-- The `$or` search clause of `get_movies` over `nom`, `genre`,
`description`. -/
def movieMatchesSearch (pat : String) (m : Movie) : Bool :=
  mongoRegexI pat m.nom || optFieldRegexI pat m.genre ||
    optFieldRegexI pat m.description

/-- The complete Mongo query built by `get_movies`: note that the year
clause is guarded by truthiness (`if annee:`), so a year of `0` adds no
clause, and a non-zero year is an exact equality. -/
def movieQueryMatches (p : MovieListParams) (m : Movie) : Bool :=
  (match strPresent p.search with
   | none => true
   | some s => movieMatchesSearch s m) &&
  (match strPresent p.nom with
   | none => true
   | some s => mongoRegexI s m.nom) &&
  (match strPresent p.genre with
   | none => true
   | some s => optFieldRegexI s m.genre) &&
  (match intPresent p.annee with
   | none => true
   | some y => m.annee == some y)

/-- Split a character list at every occurrence of `sep`, as Python's
`str.split(sep)`: the result is never empty, and splitting the empty
string yields one empty piece. -/
def splitOnChar (sep : Char) : List Char → List (List Char)
  | [] => [[]]
  | c :: cs =>
      let r := splitOnChar sep cs
      if c = sep then [] :: r
      else
        match r with
        | [] => [[c]]
        | h :: t => (c :: h) :: t

/-- Python's `filename.split('.')[-1]`. -/
def lastDotPiece (filename : String) : String :=
  String.mk ((splitOnChar (Char.ofNat 46) filename.data).getLastD [])

/-- Python's `content_type.startswith("image/")`. -/
def startsWithImage (content_type : String) : Bool :=
  charsPrefixAt "image/".data content_type.data

/-- Mongo `update_one`: apply `f` to the first element satisfying `p`,
leave everything else (and a no-match list) unchanged. -/
def updateFirst {α : Type} (p : α → Bool) (f : α → α) : List α → List α
  | [] => []
  | a :: rest => if p a then f a :: rest else a :: updateFirst p f rest

/-- `POST /api/actors`: build the full record from the validated payload
(server-generated id and timestamp are explicit parameters) and insert it. -/
def create_actor (db : DB) (payload : ActorCreate) (genId : String)
    (now : Nat) : DB × Actor :=
  let a : Actor :=
    { id := genId, nom := payload.nom, age := payload.age,
      nationalite := payload.nationalite, biographie := payload.biographie,
      photo_profil := none, filmographie := payload.filmographie,
      created_at := now }
  ({ db with actors := db.actors ++ [a] }, a)

/-- `POST /api/actors` including pydantic validation of the raw body. -/
def create_actor_api (db : DB) (r : RawActorPayload) (genId : String)
    (now : Nat) : Except ApiError (DB × Actor) :=
  match parseActorCreate r with
  | Except.error e => Except.error e
  | Except.ok payload => Except.ok (create_actor db payload genId now)

/-- An uploaded file as FastAPI hands it to the endpoint. -/
structure UploadFileIn where
  filename : String
  content_type : String
deriving Repr, DecidableEq

/-- `POST /api/actors/\x7bactor_id\x7d/photo`: reject non-images with a 400,
otherwise build the stored filename (the fresh 8-hex-digit uuid fragment is
an explicit parameter), `$set` the `photo_profil` of the first matching
record — with no existence check and no upsert — and return the URL. -/
def upload_actor_photo (db : DB) (actor_id : String) (file : UploadFileIn)
    (uuidHex8 : String) : Except ApiError (DB × String) :=
  if !startsWithImage file.content_type then
    Except.error (ApiError.badRequest "File must be an image")
  else
    let file_extension := lastDotPiece file.filename
    let filename :=
      "actor_" ++ actor_id ++ "_" ++ uuidHex8 ++ "." ++ file_extension
    let photo_url := "/uploads/" ++ filename
    let newActors :=
      updateFirst (fun a => a.id == actor_id)
        (fun a => { a with photo_profil := some photo_url }) db.actors
    Except.ok ({ db with actors := newActors }, photo_url)

/-- `GET /api/actors`: FastAPI resolves `limit` (default 50) and rejects a
supplied value above 100 with a 422 (there is no `ge` bound); for a
negative `limit`, motor's `to_list(limit)` raises `ValueError` before any
document is fetched, which surfaces as an HTTP 500; otherwise the handler
filters by the built query and caps the result at `limit` (`to_list(0)`
returns the empty list). -/
def get_actors (db : DB) (p : ActorListParams) : Except ApiError (List Actor) :=
  match p.limit with
  | some l =>
      if 100 < l then
        Except.error
          (ApiError.validation "limit: ensure this value is less than or equal to 100")
      else if l < 0 then
        Except.error (ApiError.internal "length must be non-negative")
      else Except.ok ((db.actors.filter (actorQueryMatches p)).take l.toNat)
  | none => Except.ok ((db.actors.filter (actorQueryMatches p)).take 50)

/-- `GET /api/actors/\x7bactor_id\x7d`: 404 when no record matches. -/
def get_actor (db : DB) (actor_id : String) : Except ApiError Actor :=
  match db.actors.find? (fun a => a.id == actor_id) with
  | none => Except.error (ApiError.notFound "Actor not found")
  | some a => Except.ok a

/-- `$set` of the non-null fields of the update payload
(`\x7bk: v for k, v in actor_update.dict().items() if v is not None\x7d`):
`nom` is a string and `filmographie` a list, so both are always set;
`id`, `photo_profil` and `created_at` are not payload fields and are never
touched. -/
def applyActorUpdate (old : Actor) (u : ActorCreate) : Actor :=
  { old with
    nom := u.nom,
    age := match u.age with | none => old.age | some v => some v,
    nationalite :=
      match u.nationalite with | none => old.nationalite | some v => some v,
    biographie :=
      match u.biographie with | none => old.biographie | some v => some v,
    filmographie := u.filmographie }

/-- `PUT /api/actors/\x7bactor_id\x7d`: 404 when the id is absent, else update
the first matching record and re-fetch it.  (The inner no-match branch is
unreachable: the update preserves the id.) -/
def update_actor (db : DB) (actor_id : String) (u : ActorCreate) :
    Except ApiError (DB × Actor) :=
  match db.actors.find? (fun a => a.id == actor_id) with
  | none => Except.error (ApiError.notFound "Actor not found")
  | some _ =>
      let newActors :=
        updateFirst (fun a => a.id == actor_id)
          (fun a => applyActorUpdate a u) db.actors
      match newActors.find? (fun a => a.id == actor_id) with
      | none => Except.error (ApiError.notFound "Actor not found")
      | some a2 => Except.ok ({ db with actors := newActors }, a2)

/-- `PUT /api/actors/\x7bactor_id\x7d` including pydantic validation. -/
def update_actor_api (db : DB) (actor_id : String) (r : RawActorPayload) :
    Except ApiError (DB × Actor) :=
  match parseActorCreate r with
  | Except.error e => Except.error e
  | Except.ok u => update_actor db actor_id u

/-- `DELETE /api/actors/\x7bactor_id\x7d`: delete the first matching record;
404 when `deleted_count == 0`. -/
def delete_actor (db : DB) (actor_id : String) : Except ApiError DB :=
  let remaining := db.actors.eraseP (fun a => a.id == actor_id)
  let deleted_count := db.actors.length - remaining.length
  if deleted_count = 0 then Except.error (ApiError.notFound "Actor not found")
  else Except.ok { db with actors := remaining }

/-- `POST /api/movies`. -/
def create_movie (db : DB) (payload : MovieCreate) (genId : String)
    (now : Nat) : DB × Movie :=
  let m : Movie :=
    { id := genId, nom := payload.nom, annee := payload.annee,
      genre := payload.genre, description := payload.description,
      photo_couverture := none, acteurs := payload.acteurs,
      lien_externe := payload.lien_externe, created_at := now }
  ({ db with movies := db.movies ++ [m] }, m)

/-- `POST /api/movies` including pydantic validation of the raw body. -/
def create_movie_api (db : DB) (r : RawMoviePayload) (genId : String)
    (now : Nat) : Except ApiError (DB × Movie) :=
  match parseMovieCreate r with
  | Except.error e => Except.error e
  | Except.ok payload => Except.ok (create_movie db payload genId now)

/-- `POST /api/movies/\x7bmovie_id\x7d/photo`: same shape as the actor photo
endpoint, again with no existence check. -/
def upload_movie_photo (db : DB) (movie_id : String) (file : UploadFileIn)
    (uuidHex8 : String) : Except ApiError (DB × String) :=
  if !startsWithImage file.content_type then
    Except.error (ApiError.badRequest "File must be an image")
  else
    let file_extension := lastDotPiece file.filename
    let filename :=
      "movie_" ++ movie_id ++ "_" ++ uuidHex8 ++ "." ++ file_extension
    let photo_url := "/uploads/" ++ filename
    let newMovies :=
      updateFirst (fun m => m.id == movie_id)
        (fun m => { m with photo_couverture := some photo_url }) db.movies
    Except.ok ({ db with movies := newMovies }, photo_url)

/-- `GET /api/movies`: same limit handling as `get_actors`, including the
`ValueError`-as-500 path for a negative supplied limit. -/
def get_movies (db : DB) (p : MovieListParams) : Except ApiError (List Movie) :=
  match p.limit with
  | some l =>
      if 100 < l then
        Except.error
          (ApiError.validation "limit: ensure this value is less than or equal to 100")
      else if l < 0 then
        Except.error (ApiError.internal "length must be non-negative")
      else Except.ok ((db.movies.filter (movieQueryMatches p)).take l.toNat)
  | none => Except.ok ((db.movies.filter (movieQueryMatches p)).take 50)

/-- `GET /api/movies/\x7bmovie_id\x7d`. -/
def get_movie (db : DB) (movie_id : String) : Except ApiError Movie :=
  match db.movies.find? (fun m => m.id == movie_id) with
  | none => Except.error (ApiError.notFound "Movie not found")
  | some m => Except.ok m

/-- `$set` of the non-null fields of the movie update payload: `nom` and
`acteurs` are always set; `id`, `photo_couverture` and `created_at` are
never touched. -/
def applyMovieUpdate (old : Movie) (u : MovieCreate) : Movie :=
  { old with
    nom := u.nom,
    annee := match u.annee with | none => old.annee | some v => some v,
    genre := match u.genre with | none => old.genre | some v => some v,
    description :=
      match u.description with | none => old.description | some v => some v,
    acteurs := u.acteurs,
    lien_externe :=
      match u.lien_externe with | none => old.lien_externe | some v => some v }

/-- `PUT /api/movies/\x7bmovie_id\x7d`. -/
def update_movie (db : DB) (movie_id : String) (u : MovieCreate) :
    Except ApiError (DB × Movie) :=
  match db.movies.find? (fun m => m.id == movie_id) with
  | none => Except.error (ApiError.notFound "Movie not found")
  | some _ =>
      let newMovies :=
        updateFirst (fun m => m.id == movie_id)
          (fun m => applyMovieUpdate m u) db.movies
      match newMovies.find? (fun m => m.id == movie_id) with
      | none => Except.error (ApiError.notFound "Movie not found")
      | some m2 => Except.ok ({ db with movies := newMovies }, m2)

/-- `PUT /api/movies/\x7bmovie_id\x7d` including pydantic validation. -/
def update_movie_api (db : DB) (movie_id : String) (r : RawMoviePayload) :
    Except ApiError (DB × Movie) :=
  match parseMovieCreate r with
  | Except.error e => Except.error e
  | Except.ok u => update_movie db movie_id u

/-- `DELETE /api/movies/\x7bmovie_id\x7d`. -/
def delete_movie (db : DB) (movie_id : String) : Except ApiError DB :=
  let remaining := db.movies.eraseP (fun m => m.id == movie_id)
  let deleted_count := db.movies.length - remaining.length
  if deleted_count = 0 then Except.error (ApiError.notFound "Movie not found")
  else Except.ok { db with movies := remaining }

/-- `GET /api/genres`: Mongo `distinct("genre")` followed by the Python
truthiness filter `[g for g in genres if g]`, which drops both null and the
empty string. -/
def get_all_genres (db : DB) : List String :=
  let genres : List (Option String) := (db.movies.map Movie.genre).dedup
  genres.filterMap (fun g =>
    match g with
    | none => none
    | some s => if s = "" then none else some s)

/-- `GET /api/nationalities`. -/
def get_all_nationalities (db : DB) : List String :=
  let nationalities : List (Option String) :=
    (db.actors.map Actor.nationalite).dedup
  nationalities.filterMap (fun n =>
    match n with
    | none => none
    | some s => if s = "" then none else some s)

/-- `GET /api/search?q=`: the same `$or` regex query on each collection,
each capped at 10 results. -/
def global_search (db : DB) (q : String) : List Actor × List Movie :=
  ((db.actors.filter (fun a => actorMatchesSearch q a)).take 10,
   (db.movies.filter (fun m => movieMatchesSearch q m)).take 10)

/-- A stored movie with one linked actor, for exercising partial update. -/
def movieC1 : Movie := { id := "m1", nom := "Inception", annee := some 2010, acteurs := ["a1"] }

/-- A raw update body that only means to change `genre` (plus the required
`nom`); `acteurs` is absent. -/
def rawC1 : RawMoviePayload := { nom := some "Inception", genre := some "Drama" }

/-- What the stored record becomes after `PUT` with `rawC1`. -/
def movieC1upd : Movie :=
  { id := "m1", nom := "Inception", annee := some 2010, genre := some "Drama", acteurs := [] }

/-- A stored movie used to instantiate the update frame property. -/
def movieW : Movie :=
  { id := "mw", nom := "Alien", annee := some 1979, genre := some "SF",
    description := some "d", photo_couverture := some "/uploads/x.png",
    acteurs := ["a7"], lien_externe := some "u", created_at := 5 }

/-- An update payload leaving every optional field null. -/
def uW : MovieCreate := { nom := "Aliens" }

/-- An uploaded PNG file. -/
def fileC3 : UploadFileIn := { filename := "x.png", content_type := "image/png" }

/-- The record created from a payload whose `nom` is the empty string. -/
def actorC4 : Actor := { id := "id1", nom := "", created_at := 7 }

/-- A movie whose stored genre is the empty string (non-null). -/
def movieC5a : Movie := { id := "m5", nom := "A", genre := some "" }

/-- A collection state with one empty-string genre. -/
def dbC5 : DB := { movies := [movieC5a] }

/-- A person aged 48. -/
def actorC6 : Actor := { id := "p1", nom := "P", age := some 48 }

/-- A collection state with just the 48-year-old person. -/
def dbC6 : DB := { actors := [actorC6] }

/-- A person whose name contains no dot character. -/
def actorDot : Actor := { id := "a1", nom := "ab" }

/-- A collection state for the regex-metacharacter search. -/
def dbDot : DB := { actors := [actorDot] }

/-- The stored name of the case-insensitive search example. -/
def actorMarion : Actor := { id := "a9", nom := "Marion Cotillard" }

/-- A person with a null nationality. -/
def actorC8 : Actor := { id := "a3", nom := "Solo" }

/-- A collection state with just that person. -/
def dbC8 : DB := { actors := [actorC8] }

/-- A person matching a search and two specific filters at once. -/
def actorC8w : Actor :=
  { id := "a4", nom := "Marion", nationalite := some "FR", age := some 30 }

/-- A collection state with just that person. -/
def dbC8w : DB := { actors := [actorC8w] }

/-- A list request combining a search with two specific filters. -/
def pC8w : ActorListParams :=
  { search := some "mar", nationalite := some "fr", age_min := some 20 }

/-- A person whose name has no literal dot. -/
def actorC9 : Actor := { id := "a2", nom := "xyz" }

/-- A movie whose name has no literal dot. -/
def movieC9 : Movie := { id := "m2", nom := "abc" }

/-- A collection state for the dot-metacharacter observation. -/
def dbC9 : DB := { actors := [actorC9], movies := [movieC9] }

/-- A movie with a non-zero stored year. -/
def movieY1 : Movie := { id := "y1", nom := "A", annee := some 1999 }

/-- A movie with a null year. -/
def movieY2 : Movie := { id := "y2", nom := "B" }

/-- A collection state with both movies. -/
def dbC10 : DB := { movies := [movieY1, movieY2] }

theorem mongoRegexI_empty_pat (text : String) : mongoRegexI "" text = true := by
  show regexFindList (parsePattern "") text.data = true
  have hp : parsePattern "" = [] := rfl
  rw [hp]
  cases text.data with
  | nil => rfl
  | cons d ds => simp [regexFindList, matchHere]

theorem matchHere_lit_eq (cs : List Char) : ∀ s : List Char,
    matchHere (cs.map RTok.lit) s =
      charsPrefixAt (cs.map Char.toLower) (s.map Char.toLower) := by
  induction cs with
  | nil => intro s; rfl
  | cons c cs ih =>
      intro s
      cases s with
      | nil => rfl
      | cons d ds =>
          simp [matchHere, charsPrefixAt, tokMatchesCI, ih ds]

theorem regexFindList_lit_eq (cs : List Char) (s : List Char) :
    regexFindList (cs.map RTok.lit) s =
      charsContains (cs.map Char.toLower) (s.map Char.toLower) := by
  induction s with
  | nil => simp [regexFindList, charsContains, matchHere_lit_eq]
  | cons d ds ih => simp [regexFindList, charsContains, matchHere_lit_eq, ih]

theorem parsePattern_of_no_meta (pat : String)
    (h : ∀ c ∈ pat.data, isRegexMeta c = false) :
    parsePattern pat = pat.data.map RTok.lit := by
  apply List.map_congr_left
  intro c hc
  by_cases hdot : c = '.'
  · exfalso
    have h2 := h c hc
    rw [hdot] at h2
    exact absurd h2 (by decide)
  · simp [hdot]

theorem mongoRegexI_eq_ciSubstring (pat text : String)
    (h : ∀ c ∈ pat.data, isRegexMeta c = false) :
    mongoRegexI pat text = ciSubstring pat text := by
  show regexFindList (parsePattern pat) text.data = _
  rw [parsePattern_of_no_meta pat h, regexFindList_lit_eq]
  rfl

theorem find?_updateFirst {α : Type} (p : α → Bool) (f : α → α) (l : List α)
    (a : α) (h : l.find? p = some a) (hpf : p (f a) = true) :
    (updateFirst p f l).find? p = some (f a) := by
  induction l with
  | nil => simp [List.find?] at h
  | cons x xs ih =>
      rw [List.find?_cons] at h
      by_cases hx : p x
      · rw [hx] at h
        simp at h
        subst h
        simp [updateFirst, hx, List.find?_cons, hpf]
      · rw [Bool.eq_false_iff.mpr hx] at h
        simp at h
        simp [updateFirst, hx, List.find?_cons, Bool.eq_false_iff.mpr hx, ih h]

theorem updateFirst_eq_of_forall_not {α : Type} (p : α → Bool) (f : α → α)
    (l : List α) (h : ∀ a ∈ l, ¬ p a = true) : updateFirst p f l = l := by
  induction l with
  | nil => rfl
  | cons x xs ih =>
      have hx : ¬ p x = true := h x (List.mem_cons_self x xs)
      unfold updateFirst
      rw [if_neg hx, ih (fun a ha => h a (List.mem_cons_of_mem x ha))]

theorem actorQueryMatches_of_mem_result (db : DB) (p : ActorListParams)
    (res : List Actor) (a : Actor) (hok : get_actors db p = Except.ok res)
    (ha : a ∈ res) : actorQueryMatches p a = true := by
  have hmem : a ∈ db.actors.filter (actorQueryMatches p) := by
    unfold get_actors at hok
    cases hl : p.limit with
    | none =>
        rw [hl] at hok
        simp at hok
        subst hok
        exact List.mem_of_mem_take ha
    | some l =>
        rw [hl] at hok
        by_cases h100 : 100 < l
        · simp [h100] at hok
        · by_cases hneg : l < 0
          · simp [h100, hneg] at hok
          · simp [h100, hneg] at hok
            subst hok
            exact List.mem_of_mem_take ha
  exact (List.mem_filter.mp hmem).2

theorem movieQueryMatches_of_mem_result (db : DB) (p : MovieListParams)
    (res : List Movie) (m : Movie) (hok : get_movies db p = Except.ok res)
    (hm : m ∈ res) : movieQueryMatches p m = true := by
  have hmem : m ∈ db.movies.filter (movieQueryMatches p) := by
    unfold get_movies at hok
    cases hl : p.limit with
    | none =>
        rw [hl] at hok
        simp at hok
        subst hok
        exact List.mem_of_mem_take hm
    | some l =>
        rw [hl] at hok
        by_cases h100 : 100 < l
        · simp [h100] at hok
        · by_cases hneg : l < 0
          · simp [h100, hneg] at hok
          · simp [h100, hneg] at hok
            subst hok
            exact List.mem_of_mem_take hm
  exact (List.mem_filter.mp hmem).2

/-- C3 (counterexample): photo attachment on an identifier that names no
record does not return a not-found signal; it succeeds, leaving the store
unchanged. -/
theorem c3_photo_attach_no_404 :
    upload_actor_photo {} "ghost" fileC3 "abcd1234" =
      Except.ok ({}, "/uploads/actor_ghost_abcd1234.png") := by
  rfl

/-- C4 (counterexample): a creation payload whose `nom` is the empty string
is not rejected — the record is created and persisted with the empty
name. -/
theorem c4_empty_name_accepted :
    create_actor_api {} { nom := some "" } "id1" 7 =
      Except.ok ({ actors := [actorC4] }, actorC4) ∧ actorC4.nom = "" := by
  exact ⟨rfl, rfl⟩

/-- C5 (counterexample): the empty string is a non-null stored genre value,
yet the distinct-genre listing omits it (Python truthiness drops it). -/
theorem c5_empty_string_dropped :
    get_all_genres dbC5 = [] ∧ dbC5.movies.map Movie.genre = [some ""] := by
  exact ⟨rfl, rfl⟩

/-- C9: search parameters reach the store as regular expressions, not as
literal substrings: the pattern `x.z` matches the stored name `xyz` and
`a.c` matches `abc` in the global search, although neither stored value
contains a literal dot character. -/
theorem c9_search_is_regex :
    get_actors dbC9 { search := some "x.z" } = Except.ok [actorC9] ∧
    ¬ ('.' ∈ "xyz".data) ∧
    global_search dbC9 "a.c" = ([], [movieC9]) ∧
    ¬ ('.' ∈ "abc".data) := by
  refine ⟨by rfl, by decide, by rfl, by decide⟩

/-- C1 (counterexample): updating only `genre` (with the required `nom`)
on a movie whose `acteurs` list is `["a1"]` silently resets `acteurs` to
the empty list, because the absent list field takes the payload default
`[]`, which is not `None` and is therefore written. -/
theorem c1_absent_list_overwritten :
    update_movie_api { movies := [movieC1] } "m1" rawC1 =
      Except.ok ({ movies := [movieC1upd] }, movieC1upd) ∧
    movieC1.acteurs = ["a1"] ∧ movieC1upd.acteurs = [] := by
  exact ⟨rfl, rfl, rfl⟩

/-- C1 (amended): on an existing record, update succeeds and every
payload field that is null keeps the stored value, while `id`, the photo
reference and `created_at` are never touched; the required `nom` and the
list field (`acteurs` / `filmographie`, defaulted to `[]` when absent) are
always written from the payload. -/
theorem c1_update_preserves_null_fields :
    (∀ (db : DB) (mid : String) (old : Movie) (u : MovieCreate),
      db.movies.find? (fun m => m.id == mid) = some old →
      ∃ db2 m2, update_movie db mid u = Except.ok (db2, m2) ∧
        m2.id = old.id ∧ m2.created_at = old.created_at ∧
        m2.photo_couverture = old.photo_couverture ∧
        m2.nom = u.nom ∧ m2.acteurs = u.acteurs ∧
        (u.annee = none → m2.annee = old.annee) ∧
        (u.genre = none → m2.genre = old.genre) ∧
        (u.description = none → m2.description = old.description) ∧
        (u.lien_externe = none → m2.lien_externe = old.lien_externe)) ∧
    (∀ (db : DB) (aid : String) (old : Actor) (u : ActorCreate),
      db.actors.find? (fun a => a.id == aid) = some old →
      ∃ db2 a2, update_actor db aid u = Except.ok (db2, a2) ∧
        a2.id = old.id ∧ a2.created_at = old.created_at ∧
        a2.photo_profil = old.photo_profil ∧
        a2.nom = u.nom ∧ a2.filmographie = u.filmographie ∧
        (u.age = none → a2.age = old.age) ∧
        (u.nationalite = none → a2.nationalite = old.nationalite) ∧
        (u.biographie = none → a2.biographie = old.biographie)) := by
  constructor
  · intro db mid old u hfind
    have hp0 := List.find?_some hfind
    have h2 := find?_updateFirst (fun m => m.id == mid)
      (fun m => applyMovieUpdate m u) db.movies old hfind hp0
    have h3 : update_movie db mid u = Except.ok ({ db with movies := updateFirst (fun m => m.id == mid) (fun m => applyMovieUpdate m u) db.movies }, applyMovieUpdate old u) := by
      simp only [update_movie, hfind, h2]
    refine ⟨_, applyMovieUpdate old u, h3, rfl, rfl, rfl, rfl, rfl, ?_, ?_, ?_, ?_⟩
    · intro h; simp [applyMovieUpdate, h]
    · intro h; simp [applyMovieUpdate, h]
    · intro h; simp [applyMovieUpdate, h]
    · intro h; simp [applyMovieUpdate, h]
  · intro db aid old u hfind
    have hp0 := List.find?_some hfind
    have h2 := find?_updateFirst (fun a => a.id == aid)
      (fun a => applyActorUpdate a u) db.actors old hfind hp0
    have h3 : update_actor db aid u = Except.ok ({ db with actors := updateFirst (fun a => a.id == aid) (fun a => applyActorUpdate a u) db.actors }, applyActorUpdate old u) := by
      simp only [update_actor, hfind, h2]
    refine ⟨_, applyActorUpdate old u, h3, rfl, rfl, rfl, rfl, rfl, ?_, ?_, ?_⟩
    · intro h; simp [applyActorUpdate, h]
    · intro h; simp [applyActorUpdate, h]
    · intro h; simp [applyActorUpdate, h]

/-- C1 (witness): the amended theorem applied to a concrete stored movie
and an update payload whose optional fields are all null. -/
theorem c1_update_preserves_null_fields_witness :
    ∃ db2 m2, update_movie { movies := [movieW] } "mw" uW = Except.ok (db2, m2) ∧
      m2.id = movieW.id ∧ m2.created_at = movieW.created_at ∧
      m2.photo_couverture = movieW.photo_couverture ∧
      m2.nom = uW.nom ∧ m2.acteurs = uW.acteurs ∧
      (uW.annee = none → m2.annee = movieW.annee) ∧
      (uW.genre = none → m2.genre = movieW.genre) ∧
      (uW.description = none → m2.description = movieW.description) ∧
      (uW.lien_externe = none → m2.lien_externe = movieW.lien_externe) :=
  c1_update_preserves_null_fields.1 { movies := [movieW] } "mw" movieW uW rfl

/-- C3 (amended): on an identifier naming no record, get, update and
delete answer 404 and no record is created; photo attachment, however,
answers success (no 404) while still creating nothing — the store is
returned unchanged. -/
theorem c3_unknown_id_not_found :
    (∀ (db : DB) (aid : String),
      db.actors.find? (fun a => a.id == aid) = none →
      get_actor db aid = Except.error (ApiError.notFound "Actor not found") ∧
      (∀ u, update_actor db aid u =
        Except.error (ApiError.notFound "Actor not found")) ∧
      delete_actor db aid = Except.error (ApiError.notFound "Actor not found") ∧
      (∀ (file : UploadFileIn) (uuidHex8 : String),
        startsWithImage file.content_type = true →
        ∃ url, upload_actor_photo db aid file uuidHex8 = Except.ok (db, url))) ∧
    (∀ (db : DB) (mid : String),
      db.movies.find? (fun m => m.id == mid) = none →
      get_movie db mid = Except.error (ApiError.notFound "Movie not found") ∧
      (∀ u, update_movie db mid u =
        Except.error (ApiError.notFound "Movie not found")) ∧
      delete_movie db mid = Except.error (ApiError.notFound "Movie not found") ∧
      (∀ (file : UploadFileIn) (uuidHex8 : String),
        startsWithImage file.content_type = true →
        ∃ url, upload_movie_photo db mid file uuidHex8 = Except.ok (db, url))) := by
  constructor
  · intro db aid hfind
    have hnone := List.find?_eq_none.mp hfind
    refine ⟨?_, ?_, ?_, ?_⟩
    · simp only [get_actor, hfind]
    · intro u; simp only [update_actor, hfind]
    · simp [delete_actor, List.eraseP_of_forall_not hnone]
    · intro file uu h
      refine ⟨"/uploads/" ++ ("actor_" ++ aid ++ "_" ++ uu ++ "." ++ lastDotPiece file.filename), ?_⟩
      simp [upload_actor_photo, h, updateFirst_eq_of_forall_not _ _ _ hnone]
  · intro db mid hfind
    have hnone := List.find?_eq_none.mp hfind
    refine ⟨?_, ?_, ?_, ?_⟩
    · simp only [get_movie, hfind]
    · intro u; simp only [update_movie, hfind]
    · simp [delete_movie, List.eraseP_of_forall_not hnone]
    · intro file uu h
      refine ⟨"/uploads/" ++ ("movie_" ++ mid ++ "_" ++ uu ++ "." ++ lastDotPiece file.filename), ?_⟩
      simp [upload_movie_photo, h, updateFirst_eq_of_forall_not _ _ _ hnone]

/-- C3 (witness): the unknown identifier "ghost" on the empty store. -/
theorem c3_unknown_id_not_found_witness :
    get_actor {} "ghost" = Except.error (ApiError.notFound "Actor not found") ∧
    delete_actor {} "ghost" = Except.error (ApiError.notFound "Actor not found") ∧
    (∃ url, upload_actor_photo {} "ghost" fileC3 "beef0001" =
      Except.ok ({}, url)) := by
  have h := c3_unknown_id_not_found.1 {} "ghost" rfl
  exact ⟨h.1, h.2.2.1, h.2.2.2 fileC3 "beef0001" rfl⟩

/-- C4 (amended): creation fails with a validation error when `nom` is
missing and persists nothing; for any supplied name — including the empty
string — it assigns the identifier and timestamp, persists, and returns
the full record. -/
theorem c4_create_requires_name_field :
    ∀ (db : DB) (ra : RawActorPayload) (rm : RawMoviePayload)
      (genId : String) (now : Nat),
      (ra.nom = none → create_actor_api db ra genId now =
        Except.error (ApiError.validation "nom: field required")) ∧
      (∀ n, ra.nom = some n →
        ∃ a, create_actor_api db ra genId now =
            Except.ok ({ db with actors := db.actors ++ [a] }, a) ∧
          a.id = genId ∧ a.created_at = now ∧ a.nom = n ∧
          a.photo_profil = none) ∧
      (rm.nom = none → create_movie_api db rm genId now =
        Except.error (ApiError.validation "nom: field required")) ∧
      (∀ n, rm.nom = some n →
        ∃ m, create_movie_api db rm genId now =
            Except.ok ({ db with movies := db.movies ++ [m] }, m) ∧
          m.id = genId ∧ m.created_at = now ∧ m.nom = n ∧
          m.photo_couverture = none) := by
  intro db ra rm genId now
  refine ⟨?_, ?_, ?_, ?_⟩
  · intro h; simp only [create_actor_api, parseActorCreate, h]
  · intro n h
    refine ⟨{ id := genId, nom := n, age := ra.age, nationalite := ra.nationalite, biographie := ra.biographie, photo_profil := none, filmographie := ra.filmographie.getD [], created_at := now }, ?_, rfl, rfl, rfl, rfl⟩
    simp only [create_actor_api, parseActorCreate, h, create_actor]
  · intro h; simp only [create_movie_api, parseMovieCreate, h]
  · intro n h
    refine ⟨{ id := genId, nom := n, annee := rm.annee, genre := rm.genre, description := rm.description, photo_couverture := none, acteurs := rm.acteurs.getD [], lien_externe := rm.lien_externe, created_at := now }, ?_, rfl, rfl, rfl, rfl⟩
    simp only [create_movie_api, parseMovieCreate, h, create_movie]

/-- C4 (witness): a body without `nom` is rejected; a body with `nom`
present creates the record. -/
theorem c4_create_requires_name_field_witness :
    create_actor_api {} {} "g1" 3 =
      Except.error (ApiError.validation "nom: field required") ∧
    (∃ a, create_actor_api {} { nom := some "Zoe" } "g2" 4 =
        Except.ok ({ actors := [a] }, a) ∧
      a.id = "g2" ∧ a.created_at = 4 ∧ a.nom = "Zoe" ∧
      a.photo_profil = none) :=
  ⟨(c4_create_requires_name_field {} {} {} "g1" 3).1 rfl,
   (c4_create_requires_name_field {} { nom := some "Zoe" } {} "g2" 4).2.1 "Zoe" rfl⟩

/-- C5 (amended): the distinct listings return each non-null, non-empty
stored value exactly once; empty-string values are dropped along with
nulls by the truthiness filter. -/
theorem c5_distinct_truthy_values :
    ∀ db : DB,
      (get_all_genres db).Nodup ∧
      (∀ s, s ∈ get_all_genres db ↔
        s ≠ "" ∧ some s ∈ db.movies.map Movie.genre) ∧
      (get_all_nationalities db).Nodup ∧
      (∀ s, s ∈ get_all_nationalities db ↔
        s ≠ "" ∧ some s ∈ db.actors.map Actor.nationalite) := by
  intro db
  have hinj : ∀ (a a' : Option String) (b : String),
      (b ∈ match a with
        | none => (none : Option String)
        | some s => if s = "" then none else some s) →
      (b ∈ match a' with
        | none => (none : Option String)
        | some s => if s = "" then none else some s) → a = a' := by
    intro a a' b hb hb'
    have ha : a = some b := by
      cases a with
      | none => simp at hb
      | some t =>
          by_cases ht : t = ""
          · simp [ht] at hb
          · simp [ht] at hb
            rw [hb]
    have ha' : a' = some b := by
      cases a' with
      | none => simp at hb'
      | some t =>
          by_cases ht : t = ""
          · simp [ht] at hb'
          · simp [ht] at hb'
            rw [hb']
    rw [ha, ha']
  refine ⟨?_, ?_, ?_, ?_⟩
  · exact List.Nodup.filterMap hinj (List.nodup_dedup _)
  · intro s
    simp only [get_all_genres]
    rw [List.mem_filterMap]
    constructor
    · rintro ⟨a, ha, hfa⟩
      cases a with
      | none => simp at hfa
      | some t =>
          by_cases ht : t = ""
          · simp [ht] at hfa
          · simp [ht] at hfa
            subst hfa
            exact ⟨ht, List.mem_dedup.mp ha⟩
    · rintro ⟨hs, hmem⟩
      exact ⟨some s, List.mem_dedup.mpr hmem, by simp [hs]⟩
  · exact List.Nodup.filterMap hinj (List.nodup_dedup _)
  · intro s
    simp only [get_all_nationalities]
    rw [List.mem_filterMap]
    constructor
    · rintro ⟨a, ha, hfa⟩
      cases a with
      | none => simp at hfa
      | some t =>
          by_cases ht : t = ""
          · simp [ht] at hfa
          · simp [ht] at hfa
            subst hfa
            exact ⟨ht, List.mem_dedup.mp ha⟩
    · rintro ⟨hs, hmem⟩
      exact ⟨some s, List.mem_dedup.mpr hmem, by simp [hs]⟩

/-- C6: the age-range filter is inclusive on each present bound,
open-ended on a missing bound, and contributes nothing when both bounds
are absent; the person aged 48 is returned under 45..55 and not under
..40. -/
theorem c6_age_range_filter :
    (∀ (mn mx : Option Int) (a : Actor),
      (mn = none ∧ mx = none → actorAgeMatches mn mx a = true) ∧
      (∀ v : Int, a.age = some v →
        (actorAgeMatches mn mx a = true ↔
          (∀ m, mn = some m → m ≤ v) ∧ (∀ m, mx = some m → v ≤ m)))) ∧
    get_actors dbC6 { age_min := some 45, age_max := some 55 } =
      Except.ok [actorC6] ∧
    get_actors dbC6 { age_max := some 40 } = Except.ok [] := by
  refine ⟨?_, by rfl, by rfl⟩
  intro mn mx a
  constructor
  · rintro ⟨h1, h2⟩
    subst h1
    subst h2
    rfl
  · intro v hv
    rcases mn with _ | m1 <;> rcases mx with _ | m2 <;>
      simp [actorAgeMatches, hv]

/-- C6 (witness): the amended filter equivalence instantiated at the
48-year-old person with bounds 45 and 55. -/
theorem c6_age_range_filter_witness :
    actorAgeMatches (some 45) (some 55) actorC6 = true := by
  have h := (c6_age_range_filter.1 (some 45) (some 55) actorC6).2 48 rfl
  refine h.mpr ⟨?_, ?_⟩
  · intro m hm
    injection hm with h2
    omega
  · intro m hm
    injection hm with h2
    omega

/-- C7 (counterexample): the search text `.` matches the stored name
`ab` although `.` does not occur case-insensitively as a substring of any
searched field — search text is a regular expression, not a literal
substring. -/
theorem c7_dot_matches_without_substring :
    get_actors dbDot { search := some "." } = Except.ok [actorDot] ∧
    ciSubstring "." "ab" = false ∧
    actorDot.nom = "ab" ∧ actorDot.nationalite = none ∧
    actorDot.biographie = none := by
  exact ⟨rfl, rfl, rfl, rfl, rfl⟩

/-- C7 (amended): for search text free of regex metacharacters, a record
matches the search clause exactly when the text occurs case-insensitively
as a substring of one of the fixed fields (Person: name, nationality,
biography; Work: name, genre, description). -/
theorem c7_search_ci_substring :
    ∀ pat : String, (∀ c ∈ pat.data, isRegexMeta c = false) →
      (∀ a : Actor, actorMatchesSearch pat a =
        (ciSubstring pat a.nom || optFieldCiSubstring pat a.nationalite ||
          optFieldCiSubstring pat a.biographie)) ∧
      (∀ m : Movie, movieMatchesSearch pat m =
        (ciSubstring pat m.nom || optFieldCiSubstring pat m.genre ||
          optFieldCiSubstring pat m.description)) := by
  intro pat h
  have hre : ∀ t, mongoRegexI pat t = ciSubstring pat t :=
    fun t => mongoRegexI_eq_ciSubstring pat t h
  have hopt : ∀ o : Option String,
      optFieldRegexI pat o = optFieldCiSubstring pat o := by
    intro o
    cases o with
    | none => rfl
    | some s => simp [optFieldRegexI, optFieldCiSubstring, hre]
  constructor
  · intro a; simp [actorMatchesSearch, hre, hopt]
  · intro m; simp [movieMatchesSearch, hre, hopt]

/-- C7 (witness): searching `marion` matches the stored name
`Marion Cotillard`. -/
theorem c7_search_ci_substring_witness :
    actorMatchesSearch "marion" actorMarion = true ∧
    ciSubstring "marion" "Marion Cotillard" = true := by
  have h := (c7_search_ci_substring "marion" (by decide)).1 actorMarion
  constructor
  · rw [h]; decide
  · decide

theorem actorAgeMatches_min_bound (m : Int) (mx : Option Int) (a : Actor)
    (h : actorAgeMatches (some m) mx a = true) :
    ∃ v, a.age = some v ∧ m ≤ v := by
  unfold actorAgeMatches at h
  cases hv : a.age with
  | none => rw [hv] at h; simp at h
  | some v =>
      rw [hv] at h
      simp at h
      exact ⟨v, rfl, h.1⟩

theorem actorAgeMatches_max_bound (mn : Option Int) (m : Int) (a : Actor)
    (h : actorAgeMatches mn (some m) a = true) :
    ∃ v, a.age = some v ∧ v ≤ m := by
  unfold actorAgeMatches at h
  cases hv : a.age with
  | none => rw [hv] at h; simp at h
  | some v =>
      rw [hv] at h
      simp at h
      exact ⟨v, rfl, h.2⟩

/-- C8 (counterexample): a request supplying a search and the nationality
field filter with the empty-string value returns a record with a null
nationality, which satisfies that filter neither as a regex nor as a
substring condition — the empty-string filter is dropped by truthiness
instead of being applied. -/
theorem c8_empty_filter_dropped :
    get_actors dbC8 { search := some "Solo", nationalite := some "" } =
      Except.ok [actorC8] ∧
    actorC8.nationalite = none ∧
    optFieldRegexI "" actorC8.nationalite = false ∧
    optFieldCiSubstring "" actorC8.nationalite = false := by
  exact ⟨rfl, rfl, rfl, rfl⟩

/-- C8 (amended): a record is returned only if it matches the search
OR-clause and every specific field filter with a non-empty value (an
empty-string filter value is treated as absent); the clauses are combined
by logical AND. -/
theorem c8_search_and_filters :
    ∀ (db : DB) (p : ActorListParams) (res : List Actor) (a : Actor),
      get_actors db p = Except.ok res → a ∈ res →
      (∀ s, p.search = some s → actorMatchesSearch s a = true) ∧
      (∀ s, p.nom = some s → mongoRegexI s a.nom = true) ∧
      (∀ s, p.nationalite = some s → s ≠ "" →
        optFieldRegexI s a.nationalite = true) ∧
      (∀ m, p.age_min = some m → ∃ v, a.age = some v ∧ m ≤ v) ∧
      (∀ m, p.age_max = some m → ∃ v, a.age = some v ∧ v ≤ m) := by
  intro db p res a hok ha
  have hq := actorQueryMatches_of_mem_result db p res a hok ha
  unfold actorQueryMatches at hq
  rw [Bool.and_eq_true, Bool.and_eq_true, Bool.and_eq_true] at hq
  obtain ⟨⟨⟨hs, hn⟩, hnat⟩, hage⟩ := hq
  refine ⟨?_, ?_, ?_, ?_, ?_⟩
  · intro s hps
    by_cases hemp : s = ""
    · subst hemp
      unfold actorMatchesSearch
      rw [mongoRegexI_empty_pat]
      rfl
    · have hpres : strPresent p.search = some s := by
        rw [hps]; simp [strPresent, hemp]
      rw [hpres] at hs
      exact hs
  · intro s hps
    by_cases hemp : s = ""
    · subst hemp
      exact mongoRegexI_empty_pat a.nom
    · have hpres : strPresent p.nom = some s := by
        rw [hps]; simp [strPresent, hemp]
      rw [hpres] at hn
      exact hn
  · intro s hps hemp
    have hpres : strPresent p.nationalite = some s := by
      rw [hps]; simp [strPresent, hemp]
    rw [hpres] at hnat
    exact hnat
  · intro m hm
    rw [hm] at hage
    exact actorAgeMatches_min_bound m p.age_max a hage
  · intro m hm
    rw [hm] at hage
    exact actorAgeMatches_max_bound p.age_min m a hage

/-- C8 (witness): a record returned under a combined search, nationality
filter and lower age bound satisfies each clause. -/
theorem c8_search_and_filters_witness :
    actorMatchesSearch "mar" actorC8w = true ∧
    optFieldRegexI "fr" actorC8w.nationalite = true ∧
    (∃ v, actorC8w.age = some v ∧ 20 ≤ v) := by
  have h := c8_search_and_filters dbC8w pC8w [actorC8w] actorC8w rfl
    (List.mem_singleton.mpr rfl)
  exact ⟨h.1 "mar" rfl, h.2.2.1 "fr" rfl (by decide), h.2.2.2.1 20 rfl⟩

/-- C10: the year filter is tested for truthiness, so the value 0 adds no
predicate — every movie matches — while any non-zero year filters by exact
equality. -/
theorem c10_year_zero_truthiness :
    (∀ m : Movie, movieQueryMatches { annee := some 0 } m = true) ∧
    (∀ (y : Int) (m : Movie), y ≠ 0 →
      (movieQueryMatches { annee := some y } m = true ↔ m.annee = some y)) ∧
    get_movies dbC10 { annee := some 0 } = Except.ok [movieY1, movieY2] ∧
    get_movies dbC10 { annee := some 1999 } = Except.ok [movieY1] := by
  refine ⟨?_, ?_, by rfl, by rfl⟩
  · intro m
    rfl
  · intro y m hy
    simp [movieQueryMatches, strPresent, intPresent, hy]

/-- C10 (witness): the exact-equality case instantiated at year 1999. -/
theorem c10_year_zero_truthiness_witness :
    movieQueryMatches { annee := some 1999 } movieY1 = true :=
  (c10_year_zero_truthiness.2.1 1999 movieY1 (by decide)).mpr rfl
